import Mathlib

/-!
A shallow embedding, over exact rational arithmetic, of the servoing
calculation core in moveit_ros/moveit_servo/src/servo_calcs.cpp, with
proofs about its singularity handling, limit enforcement, low-pass
filter management and periodic tick logic.

Conventions of the embedding:
* C++ double arithmetic is modelled by the rationals; IEEE NaN and
  infinity have no counterpart, and rational division by zero yields 0
  (each place where this matters is noted at the definition).
* Eigen results that servo_calcs.cpp merely consumes (SVD factors,
  the pseudoinverse, Jacobians of probed configurations, frame
  rotations) are supplied as oracle inputs, since the code treats them
  as opaque library outputs.
* ROS messaging, logging and locking are dropped; the data the messages
  carry is passed and returned explicitly.
-/

namespace MoveitServo

/-- Servo status codes (moveit_servo StatusCode). -/
inductive StatusCode where
  | NO_WARNING
  | DECELERATE_FOR_SINGULARITY
  | HALT_FOR_SINGULARITY
  | HALT_FOR_COLLISION
  | JOINT_BOUND
deriving DecidableEq, Repr

/-- The command_in_type parameter.  servo_calcs.cpp compares the raw string
against "unitless" and "speed_units"; configurations outside these two values
are rejected by parameter validation, so the embedding uses a two-valued type. -/
inductive CommandInType where
  | unitless
  | speed_units
deriving DecidableEq, Repr

/-- The configuration fields of ServoParameters that servo_calcs.cpp reads. -/
structure ServoParameters where
  publish_period : ℚ
  command_in_type : CommandInType
  linear_scale : ℚ
  rotational_scale : ℚ
  joint_scale : ℚ
  lower_singularity_threshold : ℚ
  hard_stop_singularity_threshold : ℚ
  joint_limit_margin : ℚ
  publish_joint_positions : Bool
  publish_joint_velocities : Bool
  publish_joint_accelerations : Bool
  num_outgoing_halt_msgs_to_publish : Nat
  use_gazebo : Bool
  gazebo_redundant_message_count : Nat
  num_joints : Nat
deriving DecidableEq, Repr

/-- Per-joint acceleration and velocity bounds, as stored in the robot model
(moveit::core::VariableBounds, the fields read by enforceSRDFAccelVelLimits). -/
structure VariableBounds where
  acceleration_bounded : Bool
  min_acceleration : ℚ
  max_acceleration : ℚ
  velocity_bounded : Bool
  min_velocity : ℚ
  max_velocity : ℚ
deriving DecidableEq, Repr

/-- Dot product of two rational vectors (Eigen Vector::dot; truncating zip). -/
def dotQ (a b : List ℚ) : ℚ :=
  (List.zip a b).foldl (fun acc q => acc + q.1 * q.2) 0

/-- Matrix-vector product over row-major rational matrices (Eigen operator*). -/
def matVec (m : List (List ℚ)) (v : List ℚ) : List ℚ :=
  m.map (fun row => dotQ row v)

/-- Componentwise vector addition (Eigen operator+=; truncating zip). -/
def addV (a b : List ℚ) : List ℚ :=
  (List.zip a b).map (fun q => q.1 + q.2)

/-- The branch structure of velocityScalingFactorForSingularity after the dot
product has been formed (servo_calcs.cpp lines 656-680): starting from scale 1,
ramp down on the open threshold interval and halt strictly above the hard-stop
threshold, in both cases recording the reason in the status. -/
def singularityBranch (p : ServoParameters) (ini_condition d : ℚ)
    (status : StatusCode) : ℚ × StatusCode :=
  if 0 < d then
    if p.lower_singularity_threshold < ini_condition ∧
        ini_condition < p.hard_stop_singularity_threshold then
      (1 - (ini_condition - p.lower_singularity_threshold) /
          (p.hard_stop_singularity_threshold - p.lower_singularity_threshold),
        StatusCode.DECELERATE_FOR_SINGULARITY)
    else if p.hard_stop_singularity_threshold < ini_condition then
      (0, StatusCode.HALT_FOR_SINGULARITY)
    else (1, status)
  else (1, status)

/-- Everything velocityScalingFactorForSingularity computes: the returned scale
plus its side effects (status member write, kinematic state positions after the
probe) and the intermediate quantities the claims quantify over. -/
structure SingularityScalingResult where
  velocity_scale : ℚ
  status : StatusCode
  ini_condition : ℚ
  new_condition : ℚ
  vector_used : List ℚ
  dot_product : ℚ
  theta_after : List ℚ
deriving Repr

/-- ServoCalcs::velocityScalingFactorForSingularity (servo_calcs.cpp lines
617-681).  Inputs the code reads from the Eigen SVD are passed directly:
u_last is the last column of U, sigma_first and sigma_last are the first and
last singular values.  conditionAt is the oracle for the condition number of
the Jacobian at the probed joint configuration (JacobiSVD of getJacobian at
new_theta).  theta holds the joint positions of the stored kinematic state;
the positions after the probe are returned in theta_after - the code sets
them with setJointGroupPositions and never restores them. -/
def velocityScalingFactorForSingularity (p : ServoParameters)
    (conditionAt : List ℚ → ℚ) (theta commanded_velocity : List ℚ)
    (u_last : List ℚ) (sigma_first sigma_last : ℚ)
    (pseudo_inverse : List (List ℚ)) (status : StatusCode) :
    SingularityScalingResult :=
  let ini_condition := sigma_first / sigma_last
  let scale : ℚ := 100
  let delta_x := u_last.map (fun x => x / scale)
  let new_theta := addV theta (matVec pseudo_inverse delta_x)
  let new_condition := conditionAt new_theta
  let vector_toward_singularity :=
    if new_condition ≤ ini_condition then u_last.map (fun x => -x) else u_last
  let d := dotQ vector_toward_singularity commanded_velocity
  let vs := singularityBranch p ini_condition d status
  { velocity_scale := vs.1
    status := vs.2
    ini_condition := ini_condition
    new_condition := new_condition
    vector_used := vector_toward_singularity
    dot_product := d
    theta_after := new_theta }

/-- Result of ServoCalcs::applyVelocityScaling: the scaled delta_theta and the
status member after the call. -/
structure VelocityScalingResult where
  delta_theta : List ℚ
  status : StatusCode
deriving DecidableEq, Repr

/-- ServoCalcs::applyVelocityScaling (servo_calcs.cpp lines 598-614): set
HALT_FOR_COLLISION when the collision scale is zero, multiply delta_theta by
collision_scale * singularity_scale, and zero delta_theta whenever the stored
status (from this or any earlier cycle) is HALT_FOR_COLLISION. -/
def applyVelocityScaling (collision_velocity_scale singularity_scale : ℚ)
    (status : StatusCode) (delta_theta : List ℚ) : VelocityScalingResult :=
  let collision_scale := collision_velocity_scale
  let status :=
    if collision_scale = 0 then StatusCode.HALT_FOR_COLLISION else status
  let delta_theta :=
    delta_theta.map (fun x => collision_scale * singularity_scale * x)
  if status = StatusCode.HALT_FOR_COLLISION then
    { delta_theta := delta_theta.map (fun _ => 0), status := status }
  else
    { delta_theta := delta_theta, status := status }

/-- ServoCalcs::resetServoStatus (servo_calcs.cpp lines 1071-1075): the service
handler unconditionally overwrites the status member with NO_WARNING. -/
def resetServoStatus (_status : StatusCode) : StatusCode :=
  StatusCode.NO_WARNING

/-- The acceleration-clip half of the per-joint body of
ServoCalcs::enforceSRDFAccelVelLimits (servo_calcs.cpp lines 693-721).
In the C++ code the ratio at delta_theta = 0 is an IEEE infinity or NaN and
the fabs guard rejects it; here rational division by zero makes the ratio 0,
the guard accepts it, and the product with delta_theta = 0 is again 0, so the
joint delta is unchanged in both semantics. -/
def accelLimitClip (p : ServoParameters) (b : VariableBounds)
    (prev_joint_velocity dtheta : ℚ) : ℚ :=
  if b.acceleration_bounded then
    let velocity := dtheta / p.publish_period
    let acceleration := (velocity - prev_joint_velocity) / p.publish_period
    if acceleration < b.min_acceleration then
      let relative_change :=
        ((b.min_acceleration * p.publish_period + prev_joint_velocity) *
          p.publish_period) / dtheta
      if |relative_change| < 1 then relative_change * dtheta else dtheta
    else if b.max_acceleration < acceleration then
      let relative_change :=
        ((b.max_acceleration * p.publish_period + prev_joint_velocity) *
          p.publish_period) / dtheta
      if |relative_change| < 1 then relative_change * dtheta else dtheta
    else dtheta
  else dtheta

/-- The velocity-clip half of the per-joint body of
ServoCalcs::enforceSRDFAccelVelLimits (servo_calcs.cpp lines 723-752), applied
to the delta already clipped for acceleration.  The same division-by-zero
remark as for accelLimitClip applies. -/
def velocityLimitClip (p : ServoParameters) (b : VariableBounds)
    (dtheta : ℚ) : ℚ :=
  if b.velocity_bounded then
    let velocity := dtheta / p.publish_period
    if velocity < b.min_velocity then
      let relative_change := (b.min_velocity * p.publish_period) / dtheta
      if |relative_change| < 1 then relative_change * dtheta else dtheta
    else if b.max_velocity < velocity then
      let relative_change := (b.max_velocity * p.publish_period) / dtheta
      if |relative_change| < 1 then relative_change * dtheta else dtheta
    else dtheta
  else dtheta

/-- One iteration of the joint loop of ServoCalcs::enforceSRDFAccelVelLimits:
acceleration clip first, then velocity clip on the updated delta. -/
def enforceSRDFAccelVelLimitsJoint (p : ServoParameters) (b : VariableBounds)
    (prev_joint_velocity dtheta : ℚ) : ℚ :=
  velocityLimitClip p b (accelLimitClip p b prev_joint_velocity dtheta)

/-- ServoCalcs::enforceSRDFAccelVelLimits (servo_calcs.cpp lines 683-755):
the loop over the active joints, pairing each joint bound with the previous
commanded velocity and the candidate delta of that joint. -/
def enforceSRDFAccelVelLimits (p : ServoParameters) :
    List VariableBounds → List ℚ → List ℚ → List ℚ
  | b :: bs, pv :: pvs, d :: ds =>
      enforceSRDFAccelVelLimitsJoint p b pv d ::
        enforceSRDFAccelVelLimits p bs pvs ds
  | _, _, _ => []

/-- A 6-DoF twist (geometry_msgs Twist) with rational components. -/
structure Twist where
  linear_x : ℚ
  linear_y : ℚ
  linear_z : ℚ
  angular_x : ℚ
  angular_y : ℚ
  angular_z : ℚ
deriving DecidableEq, Repr

/-- geometry_msgs TwistStamped, reduced to the fields servo_calcs.cpp reads:
the header frame and the twist itself. -/
structure TwistStamped where
  frame_id : String
  twist : Twist
deriving DecidableEq, Repr

/-- The zero twist. -/
def zeroTwist : Twist where
  linear_x := 0
  linear_y := 0
  linear_z := 0
  angular_x := 0
  angular_y := 0
  angular_z := 0

/-- One trajectory_msgs JointTrajectoryPoint. -/
structure JointTrajectoryPoint where
  positions : List ℚ
  velocities : List ℚ
  accelerations : List ℚ
  time_from_start : ℚ
deriving DecidableEq, Repr, Inhabited

/-- One trajectory_msgs JointTrajectory (header stamp dropped). -/
structure JointTrajectory where
  joint_names : List String
  points : List JointTrajectoryPoint
deriving DecidableEq, Repr

/-- sensor_msgs JointState, reduced to names, positions and velocities. -/
structure JointState where
  name : List String
  position : List ℚ
  velocity : List ℚ
deriving DecidableEq, Repr

/-- Modelled from the spec: the per-joint first-order low-pass filter class
(LowPassFilter of moveit_servo, not part of src/).  The spec describes a
fixed first-order low-pass parameterized by one coefficient whose reset
"sets the filter's internal history to a given seed value so the next output
equals the seed"; the state is the previous input and previous output. -/
structure LowPassFilter where
  coeff : ℚ
  previous_measurement : ℚ
  previous_filtered_measurement : ℚ
deriving DecidableEq, Repr

/-- Modelled from the spec: one filtering step of the first-order low-pass;
with history equal to a seed s and input s the output is again s (provided
coeff + 1 is nonzero). -/
def LowPassFilter.filterStep (f : LowPassFilter) (x : ℚ) : ℚ × LowPassFilter :=
  let y := (x + f.previous_measurement +
      (f.coeff - 1) * f.previous_filtered_measurement) / (f.coeff + 1)
  (y, { f with previous_measurement := x, previous_filtered_measurement := y })

/-- Modelled from the spec: LowPassFilter::reset seeds the internal history
with the given value. -/
def LowPassFilter.reset (f : LowPassFilter) (seed : ℚ) : LowPassFilter :=
  { f with previous_measurement := seed, previous_filtered_measurement := seed }

/-- ServoCalcs::resetLowPassFilters (servo_calcs.cpp lines 556-564): reset
filter i with position i of the given joint state. -/
def resetLowPassFilters : List LowPassFilter → List ℚ → List LowPassFilter
  | f :: fs, q :: qs => f.reset q :: resetLowPassFilters fs qs
  | fs, [] => fs
  | [], _ => []

/-- ServoCalcs::lowPassFilterPositions (servo_calcs.cpp lines 546-554): run
each filter on the matching position, returning the filtered positions and
the advanced filter bank. -/
def lowPassFilterPositions :
    List LowPassFilter → List ℚ → List ℚ × List LowPassFilter
  | f :: fs, q :: qs =>
      let step := f.filterStep q
      let rest := lowPassFilterPositions fs qs
      (step.1 :: rest.1, step.2 :: rest.2)
  | fs, [] => ([], fs)
  | [], qs => (qs, [])

/-- ServoCalcs::addJointIncrements (servo_calcs.cpp lines 961-979): add the
deltas to the positions elementwise; report failure when the increments are
longer than the position vector (the "Lengths do not match" error path). -/
def addIncrementsList : List ℚ → List ℚ → List ℚ
  | [], pos => pos
  | _ :: _, [] => []
  | inc :: incs, q :: qs => (q + inc) :: addIncrementsList incs qs

/-- The Option-valued wrapper of addJointIncrements: none is the C++ false. -/
def addJointIncrements (output : JointState) (increments : List ℚ) :
    Option JointState :=
  if output.position.length < increments.length then none
  else some { output with position := addIncrementsList increments output.position }

/-- ServoCalcs::calculateJointVelocities (servo_calcs.cpp lines 566-572):
velocity i is delta_theta i over the publish period. -/
def calculateJointVelocities (p : ServoParameters) (joint_state : JointState)
    (delta_theta : List ℚ) : JointState :=
  { joint_state with velocity := delta_theta.map (fun d => d / p.publish_period) }

/-- ServoCalcs::composeJointTrajMessage (servo_calcs.cpp lines 574-595):
build the one-point trajectory from the internal joint state, filling each
channel according to the publish flags (accelerations, when published, are
num_joints zeros). -/
def composeJointTrajMessage (p : ServoParameters) (joint_state : JointState) :
    JointTrajectory :=
  { joint_names := joint_state.name
    points := [{
      time_from_start := p.publish_period
      positions := if p.publish_joint_positions then joint_state.position else []
      velocities := if p.publish_joint_velocities then joint_state.velocity else []
      accelerations :=
        if p.publish_joint_accelerations then List.replicate p.num_joints 0
        else [] }] }

/-- ServoCalcs::suddenHalt (servo_calcs.cpp lines 799-818): ensure a first
point exists, then hold the measured positions (when publishing positions)
and zero the velocities (when publishing velocities) for every joint index.
prev_joint_velocity is not touched. -/
def suddenHalt (p : ServoParameters) (original_position : List ℚ)
    (joint_trajectory : JointTrajectory) : JointTrajectory :=
  let joint_trajectory :=
    if joint_trajectory.points.isEmpty then
      { joint_trajectory with points := [{
          time_from_start := 0
          positions := List.replicate p.num_joints 0
          velocities := List.replicate p.num_joints 0
          accelerations := [] }] }
    else joint_trajectory
  match joint_trajectory.points with
  | [] => joint_trajectory
  | pt :: rest =>
      let pt := (List.range p.num_joints).foldl
        (fun pt i =>
          let pt :=
            if p.publish_joint_positions then
              { pt with positions := pt.positions.set i (original_position.getD i 0) }
            else pt
          if p.publish_joint_velocities then
            { pt with velocities := pt.velocities.set i 0 }
          else pt)
        pt
      { joint_trajectory with points := pt :: rest }

/-- ServoCalcs::insertRedundantPointsIntoTrajectory (servo_calcs.cpp lines
534-544): resize the point list to count entries (default-constructed
padding), then overwrite points 2..count-1 with copies of point 0 whose
time_from_start is i times the publish period (index 1 is left as resized). -/
def insertRedundantPointsIntoTrajectory (p : ServoParameters)
    (joint_trajectory : JointTrajectory) (count : Nat) : JointTrajectory :=
  let pts := joint_trajectory.points.take count ++
    List.replicate (count - joint_trajectory.points.length) default
  let point := pts.getD 0 default
  let pts := (List.range count).foldl
    (fun acc i =>
      if 2 ≤ i then
        acc.set i { point with time_from_start := (i : ℚ) * p.publish_period }
      else acc)
    pts
  { joint_trajectory with points := pts }

/-- The per-joint data of the stored kinematic state and robot model that
ServoCalcs::enforceSRDFPositionLimits reads: the joint name, the position
limits from getVariableBoundsMsg (has_limits is "limits nonempty"), whether
the joint is position bounded at all, and the position and velocity held in
the kinematic state at check time. -/
structure KinJoint where
  name : String
  position_bounded : Bool
  has_limits : Bool
  min_position : ℚ
  max_position : ℚ
  position : ℚ
  velocity : ℚ
deriving DecidableEq, Repr

/-- Modelled from the spec: the kinematics provider's
satisfies_position_bounds(joint, margin) query (moveit::core::RobotState,
not part of src/): the joint position must lie within its limits enlarged
by the margin; servo_calcs.cpp calls it with margin = -joint_limit_margin,
which shrinks the limits by the margin.  Unbounded joints always satisfy. -/
def satisfiesPositionBounds (kj : KinJoint) (margin : ℚ) : Bool :=
  if kj.position_bounded then
    decide (kj.min_position - margin ≤ kj.position ∧
      kj.position ≤ kj.max_position + margin)
  else true

/-- The joint angle lookup at the start of the loop body of
enforceSRDFPositionLimits (servo_calcs.cpp lines 764-772): the original
joint state entry with matching name, defaulting to 0. -/
def jointAngleFor (original : JointState) (joint_name : String) : ℚ :=
  match (List.zip original.name original.position).find?
      (fun nq => nq.1 == joint_name) with
  | some nq => nq.2
  | none => 0

/-- ServoCalcs::enforceSRDFPositionLimits (servo_calcs.cpp lines 757-795):
a joint halts when it violates the margin-shrunk position bounds and its
kinematic-state velocity moves it further past the nearby limit; the result
is the C++ return value, true when no joint halts. -/
def enforceSRDFPositionLimits (p : ServoParameters) (kjoints : List KinJoint)
    (original : JointState) : Bool :=
  let halting := kjoints.foldl
    (fun halting kj =>
      let joint_angle := jointAngleFor original kj.name
      if !(satisfiesPositionBounds kj (-p.joint_limit_margin)) then
        if kj.has_limits then
          if (kj.velocity < 0 ∧
                joint_angle < kj.min_position + p.joint_limit_margin) ∨
              (0 < kj.velocity ∧
                kj.max_position - p.joint_limit_margin < joint_angle) then
            true
          else halting
        else halting
      else halting)
    false
  !halting

/-- What ServoCalcs::convertDeltasToOutgoingCmd leaves behind: its boolean
return value, the outgoing trajectory, the status member and the advanced
filter bank. -/
structure OutgoingResult where
  usable : Bool
  traj : JointTrajectory
  status : StatusCode
  filters : List LowPassFilter
deriving Repr

/-- ServoCalcs::convertDeltasToOutgoingCmd (servo_calcs.cpp lines 503-529):
start from the measured joint state, add the deltas (failing on a length
mismatch), low-pass filter the positions, derive velocities, compose the
one-point trajectory, and on a position-bound violation rewrite it as a
sudden halt with status JOINT_BOUND - and still return true. -/
def convertDeltasToOutgoingCmd (p : ServoParameters) (original : JointState)
    (filters : List LowPassFilter) (delta_theta : List ℚ) (status : StatusCode)
    (kjoints : List KinJoint) : OutgoingResult :=
  match addJointIncrements original delta_theta with
  | none =>
      { usable := false
        traj := { joint_names := [], points := [] }
        status := status
        filters := filters }
  | some internal =>
      let filtered := lowPassFilterPositions filters internal.position
      let internal := { internal with position := filtered.1 }
      let internal := calculateJointVelocities p internal delta_theta
      let joint_trajectory := composeJointTrajMessage p internal
      let halted :=
        if !(enforceSRDFPositionLimits p kjoints original) then
          (suddenHalt p original.position joint_trajectory,
            StatusCode.JOINT_BOUND)
        else (joint_trajectory, status)
      let joint_trajectory :=
        if p.use_gazebo then
          insertRedundantPointsIntoTrajectory p halted.1
            p.gazebo_redundant_message_count
        else halted.1
      { usable := true
        traj := joint_trajectory
        status := halted.2
        filters := filtered.2 }

/-- The oracle bundle for the Cartesian servo path: the cached command-frame
rotation, the TF rotation for an arbitrary incoming frame, and the Eigen
outputs (pseudoinverse, last column of U, first and last singular values)
for the drift-reduced Jacobian, plus the probed condition number used by
the singularity scaling. -/
structure KinematicsEnv where
  tf_moveit_to_robot_cmd_frame_linear : List (List ℚ)
  frame_rotation : String → List (List ℚ)
  pseudoInverseOf : List (List ℚ) → List (List ℚ)
  uLastOf : List (List ℚ) → List ℚ
  sigmaFirstOf : List (List ℚ) → ℚ
  sigmaLastOf : List (List ℚ) → ℚ
  conditionAt : List ℚ → ℚ

/-- The six uncontrolled-dimension zeroings of ServoCalcs::cartesianServoCalcs
(servo_calcs.cpp lines 400-412), applied in the command frame. -/
def zeroUncontrolledDimensions (control_dimensions : List Bool) (t : Twist) :
    Twist :=
  let t := if !(control_dimensions.getD 0 true) then { t with linear_x := 0 } else t
  let t := if !(control_dimensions.getD 1 true) then { t with linear_y := 0 } else t
  let t := if !(control_dimensions.getD 2 true) then { t with linear_z := 0 } else t
  let t := if !(control_dimensions.getD 3 true) then { t with angular_x := 0 } else t
  let t := if !(control_dimensions.getD 4 true) then { t with angular_y := 0 } else t
  let t := if !(control_dimensions.getD 5 true) then { t with angular_z := 0 } else t
  t

/-- Application of a 3x3 rotation (the .linear() part of an isometry) to a
3-vector, unpacking the result componentwise. -/
def rotate3 (m : List (List ℚ)) (x y z : ℚ) : ℚ × ℚ × ℚ :=
  let v := matVec m [x, y, z]
  (v.getD 0 0, v.getD 1 0, v.getD 2 0)

/-- The frame-transformation block of ServoCalcs::cartesianServoCalcs
(servo_calcs.cpp lines 414-441): when the incoming frame differs from the
planning frame, rotate the linear and angular 3-vectors - with the cached
command-frame rotation when the incoming frame is empty or the command frame,
otherwise with a freshly resolved rotation - and restamp the command. -/
def transformTwistToPlanningFrame (env : KinematicsEnv)
    (planning_frame command_frame : String) (cmd : TwistStamped) :
    TwistStamped :=
  if cmd.frame_id ≠ planning_frame then
    let rot :=
      if cmd.frame_id = "" ∨ cmd.frame_id = command_frame then
        env.tf_moveit_to_robot_cmd_frame_linear
      else env.frame_rotation cmd.frame_id
    let lin := rotate3 rot cmd.twist.linear_x cmd.twist.linear_y cmd.twist.linear_z
    let ang := rotate3 rot cmd.twist.angular_x cmd.twist.angular_y cmd.twist.angular_z
    { frame_id := planning_frame
      twist := {
        linear_x := lin.1, linear_y := lin.2.1, linear_z := lin.2.2
        angular_x := ang.1, angular_y := ang.2.1, angular_z := ang.2.2 } }
  else cmd

/-- ServoCalcs::scaleCartesianCommand (servo_calcs.cpp lines 899-927). -/
def scaleCartesianCommand (p : ServoParameters) (t : Twist) : List ℚ :=
  match p.command_in_type with
  | CommandInType.unitless =>
      [p.linear_scale * p.publish_period * t.linear_x,
        p.linear_scale * p.publish_period * t.linear_y,
        p.linear_scale * p.publish_period * t.linear_z,
        p.rotational_scale * p.publish_period * t.angular_x,
        p.rotational_scale * p.publish_period * t.angular_y,
        p.rotational_scale * p.publish_period * t.angular_z]
  | CommandInType.speed_units =>
      [t.linear_x * p.publish_period,
        t.linear_y * p.publish_period,
        t.linear_z * p.publish_period,
        t.angular_x * p.publish_period,
        t.angular_y * p.publish_period,
        t.angular_z * p.publish_period]

/-- ServoCalcs::removeDimension (servo_calcs.cpp lines 981-995): drop one row
of the Jacobian and the matching entry of delta_x. -/
def removeDimension (jacobian : List (List ℚ)) (delta_x : List ℚ)
    (row_to_remove : Nat) : List (List ℚ) × List ℚ :=
  (jacobian.eraseIdx row_to_remove, delta_x.eraseIdx row_to_remove)

/-- The drift-dimension loop of ServoCalcs::cartesianServoCalcs
(servo_calcs.cpp lines 452-458): walk the row indices from the last row of
the original Jacobian down to 0, removing each row whose drift flag is set
as long as more than one row remains. -/
def removeDriftDimensions (drift_dimensions : List Bool)
    (jacobian : List (List ℚ)) (delta_x : List ℚ) :
    List (List ℚ) × List ℚ :=
  (List.range jacobian.length).reverse.foldl
    (fun jd dim =>
      if drift_dimensions.getD dim false = true ∧ 1 < jd.1.length then
        removeDimension jd.1 jd.2 dim
      else jd)
    (jacobian, delta_x)

/-- The delta-producing pipeline of ServoCalcs::cartesianServoCalcs
(servo_calcs.cpp lines 374-471, through applyVelocityScaling): validate the
unitless range (the NaN check has no rational counterpart), zero uncontrolled
dimensions, transform to the planning frame, scale to delta_x, reduce by
drift dimensions, multiply by the pseudoinverse, clip accelerations and
velocities, then apply singularity and collision scaling.  none is a
rejected cycle (the C++ false return). -/
def cartesianServoDeltaTheta (p : ServoParameters) (env : KinematicsEnv)
    (control_dimensions drift_dimensions : List Bool)
    (jacobian : List (List ℚ)) (theta prev_joint_velocity : List ℚ)
    (bounds : List VariableBounds) (collision_velocity_scale : ℚ)
    (status : StatusCode) (planning_frame command_frame : String)
    (cmd : TwistStamped) : Option (List ℚ × StatusCode) :=
  if p.command_in_type = CommandInType.unitless ∧
      (1 < |cmd.twist.linear_x| ∨ 1 < |cmd.twist.linear_y| ∨
        1 < |cmd.twist.linear_z| ∨ 1 < |cmd.twist.angular_x| ∨
        1 < |cmd.twist.angular_y| ∨ 1 < |cmd.twist.angular_z|) then
    none
  else
    let cmd := { cmd with
      twist := zeroUncontrolledDimensions control_dimensions cmd.twist }
    let cmd := transformTwistToPlanningFrame env planning_frame command_frame cmd
    let delta_x := scaleCartesianCommand p cmd.twist
    let reduced := removeDriftDimensions drift_dimensions jacobian delta_x
    let pseudo_inverse := env.pseudoInverseOf reduced.1
    let delta_theta := matVec pseudo_inverse reduced.2
    let delta_theta := enforceSRDFAccelVelLimits p bounds prev_joint_velocity delta_theta
    let sing := velocityScalingFactorForSingularity p env.conditionAt theta
      reduced.2 (env.uLastOf reduced.1) (env.sigmaFirstOf reduced.1)
      (env.sigmaLastOf reduced.1) pseudo_inverse status
    let scaled := applyVelocityScaling collision_velocity_scale
      sing.velocity_scale sing.status delta_theta
    some (scaled.delta_theta, scaled.status)

/-- The idle branch of ServoCalcs::run (servo_calcs.cpp lines 295-303): copy
the last sent command, then iterate over the points zeroing the velocities.
The C++ range-for iterates by value, so the zeroed velocities are written to
copies of the points and discarded; the trajectory keeps the old velocities. -/
def idleTrajectoryFromLastSent (last_sent_command : JointTrajectory) :
    JointTrajectory :=
  let joint_trajectory := last_sent_command
  let _zeroed_point_copies := joint_trajectory.points.map
    (fun point => { point with
      velocities := point.velocities.map (fun _ => 0) })
  joint_trajectory

/-- The outcome of one of the two servo-calculation paths as seen by
ServoCalcs::run: either the path returned false before touching the filter
bank (rejected input, size mismatch), or it produced a trajectory and left
the filter bank stepped by lowPassFilterPositions. -/
inductive ServoOutcome where
  | notUsable
  | usable (traj : JointTrajectory) (steppedFilters : List LowPassFilter)

/-- The members of ServoCalcs that the tick body of run reads and writes. -/
structure RunState where
  paused : Bool
  wait_for_servo_commands : Bool
  have_nonzero_twist_stamped : Bool
  have_nonzero_joint_command : Bool
  twist_command_is_stale : Bool
  joint_command_is_stale : Bool
  twist_stamp_is_zero : Bool
  joint_stamp_is_zero : Bool
  original_position : List ℚ
  position_filters : List LowPassFilter
  zero_velocity_count : Nat
  last_sent_command : JointTrajectory

/-- The dispatch condition of ServoCalcs::run (servo_calcs.cpp lines
279-303): the Cartesian path when the twist is nonzero and fresh, else the
joint path when the joint command is nonzero and fresh, else the idle branch. -/
def selectedOutcome (s : RunState) (cartOutcome jointOutcome : ServoOutcome) :
    Option ServoOutcome :=
  if s.have_nonzero_twist_stamped && !s.twist_command_is_stale then
    some cartOutcome
  else if s.have_nonzero_joint_command && !s.joint_command_is_stale then
    some jointOutcome
  else none

/-- The tail of the tick body of ServoCalcs::run (servo_calcs.cpp lines
305-372) after a trajectory is in hand: halt when both command streams are
zero, decide publication against the halt burst budget, update the zero
velocity run count and the last sent command, and re-seed the filter bank if
nothing in this tick stepped it. -/
def runTickPublish (p : ServoParameters) (s : RunState)
    (joint_trajectory : JointTrajectory) (filters : List LowPassFilter)
    (updated_filters : Bool) : RunState × Option JointTrajectory :=
  let have_nonzero_command :=
    s.have_nonzero_twist_stamped || s.have_nonzero_joint_command
  let joint_trajectory :=
    if !have_nonzero_command then
      suddenHalt p s.original_position joint_trajectory
    else joint_trajectory
  let hz_twist := if !have_nonzero_command then false else s.have_nonzero_twist_stamped
  let hz_joint := if !have_nonzero_command then false else s.have_nonzero_joint_command
  let ok_to_publish :=
    !(!have_nonzero_command && (p.num_outgoing_halt_msgs_to_publish != 0) &&
      decide (p.num_outgoing_halt_msgs_to_publish < s.zero_velocity_count))
  let zero_velocity_count :=
    if !have_nonzero_command then s.zero_velocity_count + 1 else 0
  let last_sent := if ok_to_publish then joint_trajectory else s.last_sent_command
  let published := if ok_to_publish then some joint_trajectory else none
  let filters :=
    if !updated_filters then resetLowPassFilters filters s.original_position
    else filters
  ({ s with
      have_nonzero_twist_stamped := hz_twist
      have_nonzero_joint_command := hz_joint
      zero_velocity_count := zero_velocity_count
      last_sent_command := last_sent
      position_filters := filters }, published)

/-- The tick body of ServoCalcs::run (servo_calcs.cpp lines 256-372) from the
point where the command snapshot is in hand: the paused / waiting early exit
re-seeds the filters and clears the wait flag iff some command carries a
nonzero stamp; a rejected servo path re-seeds the filters and publishes
nothing; otherwise the produced (or idle) trajectory goes through the halt
and publication logic.  The servo-path outcomes are supplied as inputs. -/
def runTick (p : ServoParameters) (s : RunState)
    (cartOutcome jointOutcome : ServoOutcome) :
    RunState × Option JointTrajectory :=
  if s.wait_for_servo_commands || s.paused then
    ({ s with
        position_filters :=
          resetLowPassFilters s.position_filters s.original_position
        wait_for_servo_commands :=
          s.twist_stamp_is_zero && s.joint_stamp_is_zero }, none)
  else
    match selectedOutcome s cartOutcome jointOutcome with
    | some ServoOutcome.notUsable =>
        ({ s with
            position_filters :=
              resetLowPassFilters s.position_filters s.original_position },
          none)
    | some (ServoOutcome.usable traj steppedFilters) =>
        runTickPublish p s traj steppedFilters true
    | none =>
        runTickPublish p s (idleTrajectoryFromLastSent s.last_sent_command)
          s.position_filters false

/-- The per-joint acceleration-limit metadata of the robot model that the
worst-case stop time loop of ServoCalcs::updateJoints reads. -/
structure JointModelBounds where
  name : String
  acceleration_bounded : Bool
  min_acceleration : ℚ
  max_acceleration : ℚ
deriving DecidableEq, Repr

/-- The worst-case stop time computation of ServoCalcs::updateJoints
(servo_calcs.cpp lines 850-895): fold over the (name, velocity) pairs of the
measured joint state; the accel_limit accumulator is declared outside the
loop, is overwritten only when the matching model joint has acceleration
bounds (conservatively min of the absolute limits), and is reused unchanged
- initially 0 - for joints without bounds; every joint contributes
velocity over accel_limit to the running maximum. -/
def worstCaseStopTime (models : List JointModelBounds)
    (joints : List (String × ℚ)) : ℚ :=
  (joints.foldl
    (fun acc j =>
      let accel_limit :=
        match models.find? (fun m => m.name == j.1) with
        | some m =>
            if m.acceleration_bounded then
              min |m.min_acceleration| |m.max_acceleration|
            else acc.1
        | none => acc.1
      (accel_limit, max acc.2 |j.2 / accel_limit|))
    ((0 : ℚ), (0 : ℚ))).2

/-- A concrete configuration used by the counterexamples and witnesses:
100 Hz control, unitless input, singularity thresholds 2 and 4. -/
def exampleParams : ServoParameters where
  publish_period := 1 / 100
  command_in_type := CommandInType.unitless
  linear_scale := 1
  rotational_scale := 1
  joint_scale := 1
  lower_singularity_threshold := 2
  hard_stop_singularity_threshold := 4
  joint_limit_margin := 1 / 10
  publish_joint_positions := true
  publish_joint_velocities := true
  publish_joint_accelerations := false
  num_outgoing_halt_msgs_to_publish := 4
  use_gazebo := false
  gazebo_redundant_message_count := 3
  num_joints := 1

/-- A concrete kinematics oracle bundle used by witnesses: identity cached
rotation, a one-row pseudoinverse, and a far-from-singular probe. -/
def exampleEnv : KinematicsEnv where
  tf_moveit_to_robot_cmd_frame_linear := [[1, 0, 0], [0, 1, 0], [0, 0, 1]]
  frame_rotation := fun _ => [[1, 0, 0], [0, 1, 0], [0, 0, 1]]
  pseudoInverseOf := fun _ => [[1, 0, 0, 0, 0, 0]]
  uLastOf := fun _ => [1, 0, 0, 0, 0, 0]
  sigmaFirstOf := fun _ => 1
  sigmaLastOf := fun _ => 1
  conditionAt := fun _ => 100

/-- A probe oracle reporting a larger condition number at the probed
configuration than any ini_condition used in the examples, so the candidate
singular vector is not flipped. -/
def exampleCondFar : List ℚ → ℚ := fun _ => 100

/-- A one-joint instance of the singularity scaling at ini_condition = 4,
exactly the hard-stop threshold of exampleParams: positions [0], commanded
velocity [1], u_last [1], singular values 4 and 1, pseudoinverse [[1]]. -/
def singularityAtHardStop : SingularityScalingResult :=
  velocityScalingFactorForSingularity exampleParams exampleCondFar [0] [1] [1]
    4 1 [[1]] StatusCode.NO_WARNING

/-- A one-joint instance of the singularity scaling at ini_condition = 3, the
midpoint of the example thresholds. -/
def singularityAtMidpoint : SingularityScalingResult :=
  velocityScalingFactorForSingularity exampleParams exampleCondFar [0] [1] [1]
    3 1 [[1]] StatusCode.NO_WARNING

/-- A one-joint instance of the singularity scaling in which the probe
perturbs the stored positions: positions [0], pseudoinverse [[100]], so the
probe moves the joint by 100 * (1 / 100) = 1. -/
def singularityProbeExample : SingularityScalingResult :=
  velocityScalingFactorForSingularity exampleParams exampleCondFar [0] [1] [1]
    3 1 [[100]] StatusCode.NO_WARNING

/-- A one-joint instance of the singularity scaling in which the probed
condition number 100 strictly exceeds ini_condition = 2. -/
def singularityNoFlipExample : SingularityScalingResult :=
  velocityScalingFactorForSingularity exampleParams exampleCondFar [0] [1] [1]
    2 1 [[1]] StatusCode.NO_WARNING

/-- A one-joint instance of the singularity scaling in which the probed
condition number 100 is at most ini_condition = 200. -/
def singularityFlipExample : SingularityScalingResult :=
  velocityScalingFactorForSingularity exampleParams exampleCondFar [0] [1] [1]
    200 1 [[1]] StatusCode.NO_WARNING

/-- A default filter used with List.getD. -/
def dfltFilter : LowPassFilter where
  coeff := 0
  previous_measurement := 0
  previous_filtered_measurement := 0

/-- A last sent command holding one point with the nonzero velocity 1/2. -/
def exampleLastSent : JointTrajectory where
  joint_names := ["j1"]
  points := [{
    positions := [0]
    velocities := [1 / 2]
    accelerations := []
    time_from_start := 1 / 100 }]

/-- A run state in which the twist command has gone stale while its nonzero
flag is still set, and the last sent command carries a nonzero velocity. -/
def staleState : RunState where
  paused := false
  wait_for_servo_commands := false
  have_nonzero_twist_stamped := true
  have_nonzero_joint_command := false
  twist_command_is_stale := true
  joint_command_is_stale := true
  twist_stamp_is_zero := false
  joint_stamp_is_zero := false
  original_position := [0]
  position_filters := [⟨1, 7, 7⟩]
  zero_velocity_count := 0
  last_sent_command := exampleLastSent

/-- The measured joint state used by the position-limit examples. -/
def exampleOriginal : JointState where
  name := ["j1"]
  position := [0]
  velocity := [0]

/-- A kinematic-state joint violating the margin-shrunk position bounds of
[0, 1] with margin 1/10, moving further into the lower limit. -/
def exampleViolatingKinJoint : KinJoint where
  name := "j1"
  position_bounded := true
  has_limits := true
  min_position := 0
  max_position := 1
  position := 0
  velocity := -1

/-- The joint model list of the worst-case stop time example: j1 has
acceleration limits of magnitude 2, j2 has none. -/
def exampleStopTimeModels : List JointModelBounds :=
  [{ name := "j1", acceleration_bounded := true, min_acceleration := -2,
      max_acceleration := 2 },
    { name := "j2", acceleration_bounded := false, min_acceleration := 0,
      max_acceleration := 0 }]

/-- The measured velocities of the worst-case stop time example: the
acceleration-unbounded j2 moves at velocity 10. -/
def exampleStopTimeJoints : List (String × ℚ) :=
  [("j1", 1), ("j2", 10)]

section Theorems

/-- C10 counterexample: the stored status can leave HALT_FOR_COLLISION
without reset_servo_status and without a singularity status.  A later cycle
whose position-bound check halts (here: the zeroed delta of the collision
halt itself, with a measured joint inside the margin and drifting inward)
overwrites the status with JOINT_BOUND - which is neither NO_WARNING nor a
singularity status - and from then on applyVelocityScaling no longer zeroes
delta_theta even at a positive collision scale. -/
theorem collision_halt_escaped_by_joint_bound_counterexample :
    (convertDeltasToOutgoingCmd exampleParams exampleOriginal [⟨1, 0, 0⟩]
        [0] StatusCode.HALT_FOR_COLLISION [exampleViolatingKinJoint]).status
        = StatusCode.JOINT_BOUND ∧
      StatusCode.JOINT_BOUND ≠ StatusCode.HALT_FOR_COLLISION ∧
      StatusCode.JOINT_BOUND ≠ StatusCode.NO_WARNING ∧
      StatusCode.JOINT_BOUND ≠ StatusCode.DECELERATE_FOR_SINGULARITY ∧
      StatusCode.JOINT_BOUND ≠ StatusCode.HALT_FOR_SINGULARITY ∧
      (applyVelocityScaling 1 1 StatusCode.JOINT_BOUND [1]).delta_theta
        = [1] ∧
      [(1 : ℚ)] ≠ [0] := by
  refine ⟨?_, by decide, by decide, by decide, by decide, ?_, by norm_num⟩
  · norm_num [convertDeltasToOutgoingCmd, addJointIncrements,
      addIncrementsList, lowPassFilterPositions, LowPassFilter.filterStep,
      calculateJointVelocities, composeJointTrajMessage,
      enforceSRDFPositionLimits, satisfiesPositionBounds, jointAngleFor,
      suddenHalt, exampleParams, exampleOriginal, exampleViolatingKinJoint]
  · norm_num [applyVelocityScaling]
    rw [if_neg]
    decide

/-- C10 amended: once the stored status is HALT_FOR_COLLISION,
applyVelocityScaling zeroes delta_theta and keeps the status, for every
collision scale (in particular positive ones) and every singularity scale -
the zeroing is keyed on the stored status, not on the current collision
scale.  It persists until the stored status is overwritten, and besides the
external resetServoStatus operation (which writes NO_WARNING) and the
singularity statuses of a Cartesian cycle, the outgoing-command builder is a
third writer: whenever its position-bound check halts, it overwrites the
stored status - whatever it was, in particular HALT_FOR_COLLISION - with
JOINT_BOUND. -/
theorem halt_for_collision_sticky_until_status_overwrite :
    (∀ (c s : ℚ) (dth : List ℚ),
      (applyVelocityScaling c s StatusCode.HALT_FOR_COLLISION dth).delta_theta
          = dth.map (fun _ => 0) ∧
        (applyVelocityScaling c s StatusCode.HALT_FOR_COLLISION dth).status
          = StatusCode.HALT_FOR_COLLISION) ∧
    (∀ st : StatusCode, resetServoStatus st = StatusCode.NO_WARNING) ∧
    ∀ (p : ServoParameters) (original : JointState)
      (filters : List LowPassFilter) (delta_theta : List ℚ)
      (st : StatusCode) (kjoints : List KinJoint),
      delta_theta.length ≤ original.position.length →
      enforceSRDFPositionLimits p kjoints original = false →
      (convertDeltasToOutgoingCmd p original filters delta_theta st
        kjoints).status = StatusCode.JOINT_BOUND := by
  refine ⟨fun c s dth => ?_, fun _ => rfl,
    fun p original filters delta_theta st kjoints hlen hviol => ?_⟩
  · unfold applyVelocityScaling
    simp [Function.comp_def, List.map_const']
  · unfold convertDeltasToOutgoingCmd addJointIncrements
    rw [if_neg (not_lt.mpr hlen)]
    simp [hviol]

/-- Witness for halt_for_collision_sticky_until_status_overwrite: a stored
HALT_FOR_COLLISION zeroes the delta at collision scale 1, and the violating
example cycle overwrites a stored HALT_FOR_COLLISION with JOINT_BOUND. -/
theorem halt_for_collision_sticky_until_status_overwrite_witness :
    ((applyVelocityScaling 1 1 StatusCode.HALT_FOR_COLLISION
          [2]).delta_theta = [(0 : ℚ)] ∧
        (applyVelocityScaling 1 1 StatusCode.HALT_FOR_COLLISION [2]).status
          = StatusCode.HALT_FOR_COLLISION) ∧
      (convertDeltasToOutgoingCmd exampleParams exampleOriginal [⟨1, 0, 0⟩]
        [0] StatusCode.HALT_FOR_COLLISION [exampleViolatingKinJoint]).status
        = StatusCode.JOINT_BOUND := by
  have h := halt_for_collision_sticky_until_status_overwrite
  refine ⟨⟨?_, (h.1 1 1 [2]).2⟩, ?_⟩
  · rw [(h.1 1 1 [2]).1]
    rfl
  · exact h.2.2 exampleParams exampleOriginal [⟨1, 0, 0⟩] [0]
      StatusCode.HALT_FOR_COLLISION [exampleViolatingKinJoint]
      (by norm_num [exampleOriginal])
      (by norm_num [enforceSRDFPositionLimits, satisfiesPositionBounds,
        jointAngleFor, exampleParams, exampleOriginal,
        exampleViolatingKinJoint])

/-- C1 counterexample: at ini_condition exactly equal to the hard-stop
singularity threshold, with the dot-product test positive, the code leaves
the velocity scale at 1 and the status untouched, instead of the scale 0 and
HALT_FOR_SINGULARITY the claim asserts for the boundary case. -/
theorem hard_stop_boundary_counterexample :
    0 < singularityAtHardStop.dot_product ∧
      singularityAtHardStop.ini_condition
        = exampleParams.hard_stop_singularity_threshold ∧
      singularityAtHardStop.velocity_scale ≠ 0 ∧
      singularityAtHardStop.status ≠ StatusCode.HALT_FOR_SINGULARITY := by
  refine ⟨?_, ?_, ?_, ?_⟩ <;>
    norm_num [singularityAtHardStop, velocityScalingFactorForSingularity,
      singularityBranch, dotQ, matVec, addV, exampleCondFar, exampleParams]
  decide

/-- The velocity scale returned by velocityScalingFactorForSingularity is the
first component of its branch structure. -/
theorem velo_velocity_scale_eq (p : ServoParameters) (conditionAt : List ℚ → ℚ)
    (theta commanded_velocity u_last : List ℚ) (sigma_first sigma_last : ℚ)
    (pseudo_inverse : List (List ℚ)) (status : StatusCode) :
    (velocityScalingFactorForSingularity p conditionAt theta
        commanded_velocity u_last sigma_first sigma_last pseudo_inverse
        status).velocity_scale =
      (singularityBranch p
        (velocityScalingFactorForSingularity p conditionAt theta
          commanded_velocity u_last sigma_first sigma_last pseudo_inverse
          status).ini_condition
        (velocityScalingFactorForSingularity p conditionAt theta
          commanded_velocity u_last sigma_first sigma_last pseudo_inverse
          status).dot_product status).1 := rfl

/-- The status returned by velocityScalingFactorForSingularity is the second
component of its branch structure. -/
theorem velo_status_eq (p : ServoParameters) (conditionAt : List ℚ → ℚ)
    (theta commanded_velocity u_last : List ℚ) (sigma_first sigma_last : ℚ)
    (pseudo_inverse : List (List ℚ)) (status : StatusCode) :
    (velocityScalingFactorForSingularity p conditionAt theta
        commanded_velocity u_last sigma_first sigma_last pseudo_inverse
        status).status =
      (singularityBranch p
        (velocityScalingFactorForSingularity p conditionAt theta
          commanded_velocity u_last sigma_first sigma_last pseudo_inverse
          status).ini_condition
        (velocityScalingFactorForSingularity p conditionAt theta
          commanded_velocity u_last sigma_first sigma_last pseudo_inverse
          status).dot_product status).2 := rfl

/-- The singular vector used by the dot-product test is the candidate vector,
negated exactly when the probed condition number does not exceed the initial
one. -/
theorem velo_vector_used_eq (p : ServoParameters) (conditionAt : List ℚ → ℚ)
    (theta commanded_velocity u_last : List ℚ) (sigma_first sigma_last : ℚ)
    (pseudo_inverse : List (List ℚ)) (status : StatusCode) :
    (velocityScalingFactorForSingularity p conditionAt theta
        commanded_velocity u_last sigma_first sigma_last pseudo_inverse
        status).vector_used =
      (if (velocityScalingFactorForSingularity p conditionAt theta
            commanded_velocity u_last sigma_first sigma_last pseudo_inverse
            status).new_condition ≤
          (velocityScalingFactorForSingularity p conditionAt theta
            commanded_velocity u_last sigma_first sigma_last pseudo_inverse
            status).ini_condition then
        u_last.map (fun x => -x)
      else u_last) := rfl

/-- Case analysis of singularityBranch under a positive dot product: linear
ramp strictly inside the thresholds, halt strictly above the hard stop, and
no change - scale 1, status passed through - at the hard stop itself. -/
theorem singularityBranch_pos (p : ServoParameters) (κ d : ℚ)
    (st : StatusCode) (hd : 0 < d) :
    ((p.lower_singularity_threshold < κ ∧
        κ < p.hard_stop_singularity_threshold) →
      (singularityBranch p κ d st).1 =
          1 - (κ - p.lower_singularity_threshold) /
            (p.hard_stop_singularity_threshold - p.lower_singularity_threshold) ∧
        (singularityBranch p κ d st).2
          = StatusCode.DECELERATE_FOR_SINGULARITY) ∧
    (p.hard_stop_singularity_threshold < κ →
      (singularityBranch p κ d st).1 = 0 ∧
        (singularityBranch p κ d st).2 = StatusCode.HALT_FOR_SINGULARITY) ∧
    (κ = p.hard_stop_singularity_threshold →
      (singularityBranch p κ d st).1 = 1 ∧
        (singularityBranch p κ d st).2 = st) := by
  unfold singularityBranch
  rw [if_pos hd]
  split_ifs with h1 h2
  · exact ⟨fun _ => ⟨rfl, rfl⟩, fun h => absurd h (by linarith [h1.2]),
      fun h => absurd h (by intro he; exact absurd he.symm (by linarith [h1.2]))⟩
  · exact ⟨fun h => absurd h h1, fun _ => ⟨rfl, rfl⟩,
      fun h => by simp [h] at h2⟩
  · exact ⟨fun h => absurd h h1, fun h => absurd h h2, fun _ => ⟨rfl, rfl⟩⟩

/-- C1 amended: with the dot-product test positive, the code ramps the scale
down linearly and sets DECELERATE_FOR_SINGULARITY strictly between the
thresholds, and halts with HALT_FOR_SINGULARITY strictly above the hard-stop
threshold; at a condition number exactly equal to the hard-stop threshold the
scale is 1 and the status is left unchanged. -/
theorem singularity_scaling_branches (p : ServoParameters)
    (conditionAt : List ℚ → ℚ) (theta commanded_velocity u_last : List ℚ)
    (sigma_first sigma_last : ℚ) (pseudo_inverse : List (List ℚ))
    (status : StatusCode)
    (hdot : 0 < (velocityScalingFactorForSingularity p conditionAt theta
      commanded_velocity u_last sigma_first sigma_last pseudo_inverse
      status).dot_product) :
    ((p.lower_singularity_threshold <
        (velocityScalingFactorForSingularity p conditionAt theta
          commanded_velocity u_last sigma_first sigma_last pseudo_inverse
          status).ini_condition ∧
      (velocityScalingFactorForSingularity p conditionAt theta
          commanded_velocity u_last sigma_first sigma_last pseudo_inverse
          status).ini_condition < p.hard_stop_singularity_threshold) →
      (velocityScalingFactorForSingularity p conditionAt theta
          commanded_velocity u_last sigma_first sigma_last pseudo_inverse
          status).velocity_scale =
          1 - ((velocityScalingFactorForSingularity p conditionAt theta
              commanded_velocity u_last sigma_first sigma_last pseudo_inverse
              status).ini_condition - p.lower_singularity_threshold) /
            (p.hard_stop_singularity_threshold - p.lower_singularity_threshold) ∧
        (velocityScalingFactorForSingularity p conditionAt theta
            commanded_velocity u_last sigma_first sigma_last pseudo_inverse
            status).status = StatusCode.DECELERATE_FOR_SINGULARITY) ∧
    (p.hard_stop_singularity_threshold <
        (velocityScalingFactorForSingularity p conditionAt theta
          commanded_velocity u_last sigma_first sigma_last pseudo_inverse
          status).ini_condition →
      (velocityScalingFactorForSingularity p conditionAt theta
          commanded_velocity u_last sigma_first sigma_last pseudo_inverse
          status).velocity_scale = 0 ∧
        (velocityScalingFactorForSingularity p conditionAt theta
            commanded_velocity u_last sigma_first sigma_last pseudo_inverse
            status).status = StatusCode.HALT_FOR_SINGULARITY) ∧
    ((velocityScalingFactorForSingularity p conditionAt theta
        commanded_velocity u_last sigma_first sigma_last pseudo_inverse
        status).ini_condition = p.hard_stop_singularity_threshold →
      (velocityScalingFactorForSingularity p conditionAt theta
          commanded_velocity u_last sigma_first sigma_last pseudo_inverse
          status).velocity_scale = 1 ∧
        (velocityScalingFactorForSingularity p conditionAt theta
            commanded_velocity u_last sigma_first sigma_last pseudo_inverse
            status).status = status) := by
  rw [velo_velocity_scale_eq, velo_status_eq]
  exact singularityBranch_pos p _ _ status hdot

/-- Witness for singularity_scaling_branches at the midpoint condition
number 3 of the example thresholds 2 and 4: the scale is halved and the
status records the deceleration. -/
theorem singularity_scaling_branches_witness :
    0 < singularityAtMidpoint.dot_product ∧
      singularityAtMidpoint.velocity_scale = 1 / 2 ∧
      singularityAtMidpoint.status
        = StatusCode.DECELERATE_FOR_SINGULARITY := by
  have hdot : 0 < singularityAtMidpoint.dot_product := by
    norm_num [singularityAtMidpoint, velocityScalingFactorForSingularity,
      dotQ, matVec, addV, exampleCondFar, exampleParams]
  have hmid : exampleParams.lower_singularity_threshold <
      singularityAtMidpoint.ini_condition ∧
      singularityAtMidpoint.ini_condition <
        exampleParams.hard_stop_singularity_threshold := by
    norm_num [singularityAtMidpoint, velocityScalingFactorForSingularity,
      exampleParams]
  have h := (singularity_scaling_branches exampleParams exampleCondFar [0] [1]
    [1] 3 1 [[1]] StatusCode.NO_WARNING hdot).1 hmid
  refine ⟨hdot, ?_, h.2⟩
  unfold singularityAtMidpoint
  rw [h.1]
  norm_num [velocityScalingFactorForSingularity, exampleParams]

/-- C5: the singularity probe permanently perturbs the stored kinematic
state: at the example input the joint positions held after the call are [1],
not the original [0] - setJointGroupPositions with the probe configuration is
never undone. -/
theorem singularity_probe_perturbs_state :
    singularityProbeExample.theta_after = [1] ∧
      singularityProbeExample.theta_after ≠ [0] := by
  constructor <;>
    norm_num [singularityProbeExample, velocityScalingFactorForSingularity,
      addV, matVec, dotQ, exampleCondFar, exampleParams]

/-- C7 counterexample: at an input whose probed condition number 100 strictly
exceeds the initial condition number 2, the candidate singular vector is used
unchanged - the claim asserts it is negated in exactly this case. -/
theorem sign_flip_counterexample :
    singularityNoFlipExample.ini_condition
        < singularityNoFlipExample.new_condition ∧
      singularityNoFlipExample.vector_used = [1] ∧
      singularityNoFlipExample.vector_used ≠ [-1] := by
  refine ⟨?_, ?_, ?_⟩ <;>
    norm_num [singularityNoFlipExample, velocityScalingFactorForSingularity,
      dotQ, matVec, addV, exampleCondFar, exampleParams]

/-- C7 amended: the candidate singular vector is negated exactly when the
probed condition number is at most the initial one (the singular vector was
pointing away from the singularity when moving along it did not increase the
condition number); when the probed condition number strictly exceeds the
initial one, the vector is used unchanged. -/
theorem sign_flip_condition (p : ServoParameters) (conditionAt : List ℚ → ℚ)
    (theta commanded_velocity u_last : List ℚ) (sigma_first sigma_last : ℚ)
    (pseudo_inverse : List (List ℚ)) (status : StatusCode) :
    ((velocityScalingFactorForSingularity p conditionAt theta
        commanded_velocity u_last sigma_first sigma_last pseudo_inverse
        status).new_condition ≤
      (velocityScalingFactorForSingularity p conditionAt theta
        commanded_velocity u_last sigma_first sigma_last pseudo_inverse
        status).ini_condition →
      (velocityScalingFactorForSingularity p conditionAt theta
        commanded_velocity u_last sigma_first sigma_last pseudo_inverse
        status).vector_used = u_last.map (fun x => -x)) ∧
    ((velocityScalingFactorForSingularity p conditionAt theta
        commanded_velocity u_last sigma_first sigma_last pseudo_inverse
        status).ini_condition <
      (velocityScalingFactorForSingularity p conditionAt theta
        commanded_velocity u_last sigma_first sigma_last pseudo_inverse
        status).new_condition →
      (velocityScalingFactorForSingularity p conditionAt theta
        commanded_velocity u_last sigma_first sigma_last pseudo_inverse
        status).vector_used = u_last) := by
  rw [velo_vector_used_eq]
  constructor
  · intro h
    rw [if_pos h]
  · intro h
    rw [if_neg (not_le.mpr h)]

/-- Witness for sign_flip_condition: at the flip example the probed condition
number 100 is at most the initial 200, and the vector is negated. -/
theorem sign_flip_condition_witness :
    singularityFlipExample.new_condition ≤
        singularityFlipExample.ini_condition ∧
      singularityFlipExample.vector_used = [-1] := by
  have hle : singularityFlipExample.new_condition ≤
      singularityFlipExample.ini_condition := by
    norm_num [singularityFlipExample, velocityScalingFactorForSingularity,
      exampleCondFar, exampleParams]
  have h := (sign_flip_condition exampleParams exampleCondFar [0] [1] [1]
    200 1 [[1]] StatusCode.NO_WARNING).1 hle
  exact ⟨hle, by simpa using h⟩

/-- C8: the worst-case stop time loop does not skip joints without
acceleration bounds.  With j1 bounded by accelerations of magnitude 2 and
velocity 1, and j2 unbounded with velocity 10, the published value is 5:
j2 contributes with the stale accel_limit 2 left over from j1, whereas
skipping unbounded joints would give 1/2. -/
theorem worst_case_stop_time_stale_limit :
    worstCaseStopTime exampleStopTimeModels exampleStopTimeJoints = 5 := by
  have h1 : exampleStopTimeModels.find? (fun m => m.name == "j1")
      = some ⟨"j1", true, -2, 2⟩ := by
    simp [exampleStopTimeModels, List.find?]
  have h2 : exampleStopTimeModels.find? (fun m => m.name == "j2")
      = some ⟨"j2", false, 0, 0⟩ := by
    simp [exampleStopTimeModels, List.find?]
  rw [worstCaseStopTime, exampleStopTimeJoints]
  rw [List.foldl_cons, List.foldl_cons, List.foldl_nil]
  simp only [h1, h2]
  norm_num [abs]

/-- C3: a tick in which the nonzero twist flag is still set but the command
is stale publishes the idle trajectory copied from the last sent command
with its velocities unchanged - the velocity-zeroing loop of the idle branch
writes to discarded copies of the points - so the published velocity stays
at the nonzero 1/2 of the stale example state. -/
theorem idle_trajectory_keeps_stale_velocities :
    (runTick exampleParams staleState ServoOutcome.notUsable
        ServoOutcome.notUsable).2 = some exampleLastSent ∧
      exampleLastSent.points.map (fun pt => pt.velocities) = [[1 / 2]] := by
  constructor
  · norm_num [runTick, selectedOutcome, runTickPublish,
      idleTrajectoryFromLastSent, staleState, exampleParams, exampleLastSent]
  · rfl

/-- C6 counterexample: at a joint measured inside the margin of its lower
position limit and moving further in, convertDeltasToOutgoingCmd rewrites
the trajectory as a sudden halt and sets JOINT_BOUND but returns true
(usable), not the "not usable" the claim asserts. -/
theorem joint_bound_usable_counterexample :
    (convertDeltasToOutgoingCmd exampleParams exampleOriginal [⟨1, 0, 0⟩]
        [-(1 / 1000)] StatusCode.NO_WARNING
        [exampleViolatingKinJoint]).usable = true ∧
      (convertDeltasToOutgoingCmd exampleParams exampleOriginal [⟨1, 0, 0⟩]
        [-(1 / 1000)] StatusCode.NO_WARNING
        [exampleViolatingKinJoint]).status = StatusCode.JOINT_BOUND := by
  constructor <;>
    norm_num [convertDeltasToOutgoingCmd, addJointIncrements,
      addIncrementsList, lowPassFilterPositions, LowPassFilter.filterStep,
      calculateJointVelocities, composeJointTrajMessage,
      enforceSRDFPositionLimits, satisfiesPositionBounds, jointAngleFor,
      suddenHalt, exampleParams, exampleOriginal, exampleViolatingKinJoint]

/-- C6 amended: when the position-bound check detects a violating joint, the
outgoing-command builder rewrites the trajectory as a sudden halt and sets
status = JOINT_BOUND, but returns usable (true), so the halt trajectory is
published that tick (and the filters, already stepped, are not re-seeded by
this path). -/
theorem joint_bound_halts_and_stays_usable (p : ServoParameters)
    (original : JointState) (filters : List LowPassFilter)
    (delta_theta : List ℚ) (status : StatusCode) (kjoints : List KinJoint)
    (hlen : delta_theta.length ≤ original.position.length)
    (hviol : enforceSRDFPositionLimits p kjoints original = false) :
    (convertDeltasToOutgoingCmd p original filters delta_theta status
        kjoints).usable = true ∧
      (convertDeltasToOutgoingCmd p original filters delta_theta status
        kjoints).status = StatusCode.JOINT_BOUND ∧
      (p.use_gazebo = false →
        ∃ jt, (convertDeltasToOutgoingCmd p original filters delta_theta
          status kjoints).traj = suddenHalt p original.position jt) := by
  unfold convertDeltasToOutgoingCmd addJointIncrements
  rw [if_neg (not_lt.mpr hlen)]
  refine ⟨?_, ?_, fun hg => ?_⟩
  · simp [hviol]
  · simp [hviol]
  · rw [hg]
    simp only [hviol, Bool.not_false, if_true, Bool.false_eq_true, if_false]
    exact ⟨_, rfl⟩

/-- Witness for joint_bound_halts_and_stays_usable at the concrete violating
example input. -/
theorem joint_bound_halts_witness :
    (convertDeltasToOutgoingCmd exampleParams exampleOriginal [⟨1, 0, 0⟩]
        [-(1 / 500)] StatusCode.NO_WARNING
        [exampleViolatingKinJoint]).usable = true ∧
      (convertDeltasToOutgoingCmd exampleParams exampleOriginal [⟨1, 0, 0⟩]
        [-(1 / 500)] StatusCode.NO_WARNING
        [exampleViolatingKinJoint]).status = StatusCode.JOINT_BOUND ∧
      (exampleParams.use_gazebo = false →
        ∃ jt, (convertDeltasToOutgoingCmd exampleParams exampleOriginal
          [⟨1, 0, 0⟩] [-(1 / 500)] StatusCode.NO_WARNING
          [exampleViolatingKinJoint]).traj =
            suddenHalt exampleParams exampleOriginal.position jt) :=
  joint_bound_halts_and_stays_usable exampleParams exampleOriginal
    [⟨1, 0, 0⟩] [-(1 / 500)] StatusCode.NO_WARNING [exampleViolatingKinJoint]
    (by norm_num [exampleOriginal])
    (by norm_num [enforceSRDFPositionLimits, satisfiesPositionBounds,
      jointAngleFor, exampleParams, exampleOriginal, exampleViolatingKinJoint])

/-- Element-wise description of resetLowPassFilters: filter i is reset with
seed i. -/
theorem resetLowPassFilters_getD (fs : List LowPassFilter) (qs : List ℚ)
    (i : Nat) (d : LowPassFilter) (hf : i < fs.length) (hq : i < qs.length) :
    (resetLowPassFilters fs qs).getD i d
      = (fs.getD i d).reset (qs.getD i 0) := by
  induction fs generalizing qs i with
  | nil => simp at hf
  | cons f fs ih =>
    cases qs with
    | nil => simp at hq
    | cons q qs =>
      cases i with
      | zero => rfl
      | succ n =>
        simp only [resetLowPassFilters, List.getD_cons_succ]
        exact ih qs n (by simpa using hf) (by simpa using hq)

/-- A reset filter reproduces its seed on the next step, provided the filter
denominator coeff + 1 is nonzero. -/
theorem filterStep_after_reset (f : LowPassFilter) (seed : ℚ)
    (h : f.coeff + 1 ≠ 0) : ((f.reset seed).filterStep seed).1 = seed := by
  unfold LowPassFilter.reset LowPassFilter.filterStep
  field_simp
  ring

/-- C4: on every tick in which no trajectory point is produced from a live
command - paused or waiting, a rejected or failed servo path, or both
command streams zero or stale - the filter bank held after the tick is the
old bank re-seeded with original_position, and (whenever a filter's
denominator is nonzero) stepping any filter of the new bank on its seed
returns the seed, so resumption cannot jump. -/
theorem no_live_command_resets_filters (p : ServoParameters) (s : RunState)
    (cartOutcome jointOutcome : ServoOutcome)
    (hsel : ∀ traj steppedFilters, selectedOutcome s cartOutcome jointOutcome
      ≠ some (ServoOutcome.usable traj steppedFilters)) :
    (runTick p s cartOutcome jointOutcome).1.position_filters
        = resetLowPassFilters s.position_filters s.original_position ∧
      ∀ i, i < s.position_filters.length → i < s.original_position.length →
        (s.position_filters.getD i dfltFilter).coeff + 1 ≠ 0 →
        (((runTick p s cartOutcome jointOutcome).1.position_filters.getD i
            dfltFilter).filterStep (s.original_position.getD i 0)).1
          = s.original_position.getD i 0 := by
  have hmain : (runTick p s cartOutcome jointOutcome).1.position_filters
      = resetLowPassFilters s.position_filters s.original_position := by
    unfold runTick
    split
    · rfl
    · rcases hso : selectedOutcome s cartOutcome jointOutcome with - | o
      · rfl
      · rcases o with - | ⟨traj, steppedFilters⟩
        · rfl
        · exact absurd hso (hsel traj steppedFilters)
  refine ⟨hmain, fun i hif hiq hcoeff => ?_⟩
  rw [hmain, resetLowPassFilters_getD s.position_filters s.original_position
    i dfltFilter hif hiq]
  exact filterStep_after_reset _ _ hcoeff

/-- Witness for no_live_command_resets_filters at the stale example state:
the bank is re-seeded and filter 0 reproduces the seed 0. -/
theorem no_live_command_resets_filters_witness :
    (runTick exampleParams staleState ServoOutcome.notUsable
          ServoOutcome.notUsable).1.position_filters
        = resetLowPassFilters staleState.position_filters
            staleState.original_position ∧
      (((runTick exampleParams staleState ServoOutcome.notUsable
          ServoOutcome.notUsable).1.position_filters.getD 0
            dfltFilter).filterStep 0).1 = 0 := by
  have h := no_live_command_resets_filters exampleParams staleState
    ServoOutcome.notUsable ServoOutcome.notUsable
    (by intro traj steppedFilters
        simp [selectedOutcome, staleState])
  exact ⟨h.1, h.2 0 (by norm_num [staleState]) (by norm_num [staleState])
    (by norm_num [staleState, dfltFilter])⟩

/-- Folding the dot-product accumulator over pairs whose second components
are all zero leaves the accumulator unchanged. -/
theorem foldl_dot_zero (l : List (ℚ × ℚ)) (acc : ℚ)
    (h : ∀ q ∈ l, q.2 = 0) :
    l.foldl (fun acc q => acc + q.1 * q.2) acc = acc := by
  induction l generalizing acc with
  | nil => rfl
  | cons a l ih =>
    have ha := h a (by simp)
    simp only [List.foldl_cons, ha, mul_zero, add_zero]
    exact ih acc (fun q hq => h q (by simp [hq]))

/-- The dot product with an all-zero right factor is zero. -/
theorem dotQ_right_zero (v w : List ℚ) (h : ∀ x ∈ w, x = 0) :
    dotQ v w = 0 := by
  apply foldl_dot_zero
  intro q hq
  exact h q.2 (List.of_mem_zip hq).2

/-- A matrix applied to an all-zero vector yields an all-zero vector. -/
theorem matVec_members_zero (m : List (List ℚ)) (v : List ℚ)
    (h : ∀ x ∈ v, x = 0) : ∀ x ∈ matVec m v, x = 0 := by
  intro x hx
  unfold matVec at hx
  rcases List.mem_map.mp hx with ⟨row, _, rfl⟩
  exact dotQ_right_zero row v h

/-- getD at default 0 of an all-zero list is 0, in or out of range. -/
theorem getD_zero_of_members (l : List ℚ) (i : Nat)
    (h : ∀ x ∈ l, x = 0) : l.getD i 0 = 0 := by
  by_cases hi : i < l.length
  · rw [List.getD_eq_getElem _ _ hi]
    exact h _ (List.getElem_mem hi)
  · exact List.getD_eq_default _ _ (le_of_not_lt hi)

/-- A rotation applied to the zero 3-vector is the zero 3-vector. -/
theorem rotate3_zero (m : List (List ℚ)) : rotate3 m 0 0 0 = (0, 0, 0) := by
  unfold rotate3
  dsimp only
  have h : ∀ x ∈ matVec m [0, 0, 0], x = 0 :=
    matVec_members_zero m [0, 0, 0]
      (by intro x hx; simp at hx; exact hx)
  rw [getD_zero_of_members _ _ h, getD_zero_of_members _ _ h,
    getD_zero_of_members _ _ h]

/-- With all six control dimensions false, the uncontrolled-dimension
zeroing maps every twist to the zero twist. -/
theorem zeroUncontrolled_all_false (t : Twist) :
    zeroUncontrolledDimensions [false, false, false, false, false, false] t
      = zeroTwist := rfl

/-- Transforming a command whose twist is zero yields a zero twist in every
frame branch. -/
theorem transform_zero_twist (env : KinematicsEnv) (pf cf : String)
    (cmd : TwistStamped) (h : cmd.twist = zeroTwist) :
    (transformTwistToPlanningFrame env pf cf cmd).twist = zeroTwist := by
  unfold transformTwistToPlanningFrame
  split
  · simp only [h, zeroTwist, rotate3_zero]
  · exact h

/-- Scaling the zero twist yields the all-zero 6-vector in both input
modes. -/
theorem scaleCartesianCommand_members_zero (p : ServoParameters) :
    ∀ x ∈ scaleCartesianCommand p zeroTwist, x = 0 := by
  unfold scaleCartesianCommand zeroTwist
  cases p.command_in_type <;> simp

/-- The drift-dimension loop preserves an all-zero delta_x. -/
theorem driftFoldl_zero (drift : List Bool) (dims : List Nat) :
    ∀ (jd : List (List ℚ) × List ℚ), (∀ x ∈ jd.2, x = 0) →
      ∀ x ∈ (dims.foldl
        (fun jd dim =>
          if drift.getD dim false = true ∧ 1 < jd.1.length then
            removeDimension jd.1 jd.2 dim
          else jd) jd).2, x = 0 := by
  induction dims with
  | nil => intro jd h; simpa using h
  | cons dim rest ih =>
    intro jd h
    rw [List.foldl_cons]
    apply ih
    by_cases hc : drift.getD dim false = true ∧ 1 < jd.1.length
    · rw [if_pos hc]
      intro x hx
      exact h x ((List.eraseIdx_sublist jd.2 dim).mem hx)
    · rw [if_neg hc]
      exact h

/-- removeDriftDimensions preserves an all-zero delta_x. -/
theorem removeDrift_zero (drift : List Bool) (jacobian : List (List ℚ))
    (delta_x : List ℚ) (h : ∀ x ∈ delta_x, x = 0) :
    ∀ x ∈ (removeDriftDimensions drift jacobian delta_x).2, x = 0 := by
  unfold removeDriftDimensions
  exact driftFoldl_zero drift _ (jacobian, delta_x) h

/-- The acceleration clip maps a zero delta to a zero delta (in the
rational semantics the ratio at a zero delta is 0 and multiplying back
leaves 0; in IEEE semantics the fabs guard rejects the infinite ratio and
also leaves 0). -/
theorem accelLimitClip_zero (p : ServoParameters) (b : VariableBounds)
    (pv : ℚ) : accelLimitClip p b pv 0 = 0 := by
  unfold accelLimitClip
  split_ifs <;> simp

/-- The velocity clip maps a zero delta to a zero delta. -/
theorem velocityLimitClip_zero (p : ServoParameters) (b : VariableBounds) :
    velocityLimitClip p b 0 = 0 := by
  unfold velocityLimitClip
  split_ifs <;> simp

/-- The per-joint limit enforcement maps a zero delta to a zero delta. -/
theorem enforceSRDFAccelVelLimitsJoint_zero (p : ServoParameters)
    (b : VariableBounds) (pv : ℚ) :
    enforceSRDFAccelVelLimitsJoint p b pv 0 = 0 := by
  unfold enforceSRDFAccelVelLimitsJoint
  rw [accelLimitClip_zero, velocityLimitClip_zero]

/-- The limit-enforcement loop preserves an all-zero delta_theta. -/
theorem enforce_list_zero (p : ServoParameters) :
    ∀ (bs : List VariableBounds) (pvs ds : List ℚ), (∀ x ∈ ds, x = 0) →
      ∀ x ∈ enforceSRDFAccelVelLimits p bs pvs ds, x = 0 := by
  intro bs
  induction bs with
  | nil =>
    intro pvs ds _ x hx
    simp [enforceSRDFAccelVelLimits] at hx
  | cons b bs ih =>
    intro pvs ds h x hx
    cases pvs with
    | nil => simp [enforceSRDFAccelVelLimits] at hx
    | cons pv pvs =>
      cases ds with
      | nil => simp [enforceSRDFAccelVelLimits] at hx
      | cons d ds =>
        have hd : d = 0 := h d (by simp)
        simp only [enforceSRDFAccelVelLimits, List.mem_cons] at hx
        rcases hx with rfl | hx
        · rw [hd]
          exact enforceSRDFAccelVelLimitsJoint_zero p b pv
        · exact ih pvs ds (fun y hy => h y (List.mem_cons_of_mem d hy)) x hx

/-- The dot product used by the singularity test is that of the
disambiguated vector with the commanded velocity. -/
theorem velo_dot_product_eq (p : ServoParameters) (conditionAt : List ℚ → ℚ)
    (theta commanded_velocity u_last : List ℚ) (sigma_first sigma_last : ℚ)
    (pseudo_inverse : List (List ℚ)) (status : StatusCode) :
    (velocityScalingFactorForSingularity p conditionAt theta
        commanded_velocity u_last sigma_first sigma_last pseudo_inverse
        status).dot_product =
      dotQ (velocityScalingFactorForSingularity p conditionAt theta
        commanded_velocity u_last sigma_first sigma_last pseudo_inverse
        status).vector_used commanded_velocity := rfl

/-- With a zero dot product neither deceleration branch fires. -/
theorem singularityBranch_zero_dot (p : ServoParameters) (κ : ℚ)
    (st : StatusCode) : singularityBranch p κ 0 st = (1, st) := by
  unfold singularityBranch
  rw [if_neg (lt_irrefl 0)]

/-- With an all-zero commanded velocity the singularity scaling leaves the
status unchanged. -/
theorem velo_status_of_zero_cmd (p : ServoParameters)
    (conditionAt : List ℚ → ℚ)
    (theta commanded_velocity u_last : List ℚ) (sigma_first sigma_last : ℚ)
    (pseudo_inverse : List (List ℚ)) (status : StatusCode)
    (h : ∀ x ∈ commanded_velocity, x = 0) :
    (velocityScalingFactorForSingularity p conditionAt theta
        commanded_velocity u_last sigma_first sigma_last pseudo_inverse
        status).status = status := by
  have hd : (velocityScalingFactorForSingularity p conditionAt theta
      commanded_velocity u_last sigma_first sigma_last pseudo_inverse
      status).dot_product = 0 := by
    rw [velo_dot_product_eq]
    exact dotQ_right_zero _ _ h
  rw [velo_status_eq, hd, singularityBranch_zero_dot]

/-- Velocity scaling of an all-zero delta_theta yields an all-zero
delta_theta in both the halting and the regular branch. -/
theorem applyVelocityScaling_members_zero (c s : ℚ) (st : StatusCode)
    (dth : List ℚ) (h : ∀ y ∈ dth, y = 0) :
    ∀ x ∈ (applyVelocityScaling c s st dth).delta_theta, x = 0 := by
  unfold applyVelocityScaling
  dsimp only
  intro x hx
  by_cases h1 : (if c = 0 then StatusCode.HALT_FOR_COLLISION else st)
      = StatusCode.HALT_FOR_COLLISION
  · rw [if_pos h1] at hx
    dsimp only at hx
    rcases List.mem_map.mp hx with ⟨y, _, rfl⟩
    rfl
  · rw [if_neg h1] at hx
    dsimp only at hx
    rcases List.mem_map.mp hx with ⟨y, hy, rfl⟩
    rw [h y hy, mul_zero]

/-- With a nonzero collision scale and a non-halting stored status, velocity
scaling passes the status through. -/
theorem applyVelocityScaling_status_eq (c s : ℚ) (st : StatusCode)
    (dth : List ℚ) (hc : c ≠ 0)
    (hst : st ≠ StatusCode.HALT_FOR_COLLISION) :
    (applyVelocityScaling c s st dth).status = st := by
  unfold applyVelocityScaling
  dsimp only
  rw [if_neg hc, if_neg hst]

/-- C9: with all six control dimensions false, any twist command that the
NaN and unitless-range checks accept, a nonzero collision scale and an
initial status of NO_WARNING, the Cartesian pipeline produces the all-zero
delta_theta and leaves the status at NO_WARNING (the acceleration-clip
ratio at the zero deltas never changes them). -/
theorem all_control_dimensions_false_zero_delta (p : ServoParameters)
    (env : KinematicsEnv) (drift_dimensions : List Bool)
    (jacobian : List (List ℚ)) (theta prev_joint_velocity : List ℚ)
    (bounds : List VariableBounds) (collision_velocity_scale : ℚ)
    (planning_frame command_frame : String) (cmd : TwistStamped)
    (out : List ℚ × StatusCode)
    (hc : collision_velocity_scale ≠ 0)
    (hres : cartesianServoDeltaTheta p env
      [false, false, false, false, false, false] drift_dimensions jacobian
      theta prev_joint_velocity bounds collision_velocity_scale
      StatusCode.NO_WARNING planning_frame command_frame cmd = some out) :
    (∀ x ∈ out.1, x = 0) ∧ out.2 = StatusCode.NO_WARNING := by
  unfold cartesianServoDeltaTheta at hres
  split at hres
  · exact Option.noConfusion hres
  · injection hres with hres
    subst hres
    have hz2 : ∀ x ∈ (removeDriftDimensions drift_dimensions jacobian
        (scaleCartesianCommand p (transformTwistToPlanningFrame env
          planning_frame command_frame { cmd with
            twist := zeroUncontrolledDimensions
              [false, false, false, false, false, false]
              cmd.twist }).twist)).2, x = 0 := by
      apply removeDrift_zero
      rw [transform_zero_twist env planning_frame command_frame _
        (zeroUncontrolled_all_false cmd.twist)]
      exact scaleCartesianCommand_members_zero p
    constructor
    · apply applyVelocityScaling_members_zero
      apply enforce_list_zero
      exact matVec_members_zero _ _ hz2
    · rw [applyVelocityScaling_status_eq _ _ _ _ hc
        (by rw [velo_status_of_zero_cmd _ _ _ _ _ _ _ _ _ hz2]; simp)]
      exact velo_status_of_zero_cmd _ _ _ _ _ _ _ _ _ hz2

/-- Witness for all_control_dimensions_false_zero_delta on a concrete
one-joint setup with a nonzero twist input: the pipeline accepts the input
and returns the zero delta with status NO_WARNING. -/
theorem all_control_dimensions_false_zero_delta_witness :
    (1 : ℚ) ≠ 0 ∧
      cartesianServoDeltaTheta exampleParams exampleEnv
          [false, false, false, false, false, false]
          [false, false, false, false, false, false] [[1]] [0] [0]
          [⟨true, -1, 1, true, -1, 1⟩] 1 StatusCode.NO_WARNING
          "base" "ee" ⟨"base", ⟨1 / 2, 0, 0, 0, 0, 0⟩⟩
        = some ([0], StatusCode.NO_WARNING) ∧
      ((∀ x ∈ [(0 : ℚ)], x = 0) ∧
        StatusCode.NO_WARNING = StatusCode.NO_WARNING) := by
  have hres : cartesianServoDeltaTheta exampleParams exampleEnv
      [false, false, false, false, false, false]
      [false, false, false, false, false, false] [[1]] [0] [0]
      [⟨true, -1, 1, true, -1, 1⟩] 1 StatusCode.NO_WARNING
      "base" "ee" ⟨"base", ⟨1 / 2, 0, 0, 0, 0, 0⟩⟩
      = some ([0], StatusCode.NO_WARNING) := by
    norm_num [cartesianServoDeltaTheta, zeroUncontrolledDimensions,
      transformTwistToPlanningFrame, scaleCartesianCommand,
      removeDriftDimensions, removeDimension, matVec, dotQ, addV,
      enforceSRDFAccelVelLimits, enforceSRDFAccelVelLimitsJoint,
      accelLimitClip, velocityLimitClip,
      velocityScalingFactorForSingularity, singularityBranch,
      applyVelocityScaling, exampleParams, exampleEnv, abs,
      List.range_succ]
  have h := all_control_dimensions_false_zero_delta exampleParams exampleEnv
    [false, false, false, false, false, false] [[1]] [0] [0]
    [⟨true, -1, 1, true, -1, 1⟩] 1 "base" "ee"
    ⟨"base", ⟨1 / 2, 0, 0, 0, 0, 0⟩⟩ ([0], StatusCode.NO_WARNING)
    (by norm_num) hres
  exact ⟨by norm_num, hres, h⟩

/-- The singularity velocity scale always lies in [0, 1]: the ramp branch is
guarded by both thresholds, the halt branch yields 0, all others 1. -/
theorem singularityBranch_scale_mem (p : ServoParameters) (κ d : ℚ)
    (st : StatusCode) :
    0 ≤ (singularityBranch p κ d st).1 ∧ (singularityBranch p κ d st).1 ≤ 1 := by
  unfold singularityBranch
  split_ifs with hd h1 h2
  · have hl : 0 < p.hard_stop_singularity_threshold
        - p.lower_singularity_threshold := by linarith [h1.1, h1.2]
    constructor
    · dsimp only
      rw [sub_nonneg]
      exact (div_le_one hl).mpr (by linarith [h1.2])
    · dsimp only
      have h0 : 0 ≤ (κ - p.lower_singularity_threshold) /
          (p.hard_stop_singularity_threshold - p.lower_singularity_threshold) :=
        div_nonneg (by linarith [h1.1]) (le_of_lt hl)
      linarith
  · exact ⟨le_refl 0, by norm_num⟩
  · exact ⟨by norm_num, le_refl 1⟩
  · exact ⟨by norm_num, le_refl 1⟩

/-- The scale returned by velocityScalingFactorForSingularity lies in [0, 1]. -/
theorem velo_scale_mem (p : ServoParameters) (conditionAt : List ℚ → ℚ)
    (theta commanded_velocity u_last : List ℚ) (sigma_first sigma_last : ℚ)
    (pseudo_inverse : List (List ℚ)) (status : StatusCode) :
    0 ≤ (velocityScalingFactorForSingularity p conditionAt theta
        commanded_velocity u_last sigma_first sigma_last pseudo_inverse
        status).velocity_scale ∧
      (velocityScalingFactorForSingularity p conditionAt theta
        commanded_velocity u_last sigma_first sigma_last pseudo_inverse
        status).velocity_scale ≤ 1 := by
  rw [velo_velocity_scale_eq]
  exact singularityBranch_scale_mem p _ _ status

/-- The velocity clip leaves the per-joint velocity inside the velocity
bounds whenever the bounds bracket zero: out-of-bound velocities are scaled
exactly onto the violated bound (the fabs guard always accepts the ratio in
that situation), in-bound velocities are untouched. -/
theorem velocityLimitClip_bounds (p : ServoParameters) (b : VariableBounds)
    (d : ℚ) (hdt : 0 < p.publish_period) (hvb : b.velocity_bounded = true)
    (hmin : b.min_velocity ≤ 0) (hmax : 0 ≤ b.max_velocity) :
    b.min_velocity ≤ velocityLimitClip p b d / p.publish_period ∧
      velocityLimitClip p b d / p.publish_period ≤ b.max_velocity := by
  unfold velocityLimitClip
  rw [if_pos hvb]
  dsimp only
  split_ifs with h1 h2 h3 h4
  · have hdneg : d < b.min_velocity * p.publish_period := by
      have := (div_lt_iff₀ hdt).mp h1
      linarith
    have hd0 : d < 0 := by nlinarith
    rw [div_mul_cancel₀ _ (ne_of_lt hd0),
      mul_div_cancel_right₀ _ (ne_of_gt hdt)]
    exact ⟨le_refl _, le_trans hmin hmax⟩
  · have hdneg : d < b.min_velocity * p.publish_period := by
      have := (div_lt_iff₀ hdt).mp h1
      linarith
    have hd0 : d < 0 := by nlinarith
    have hrd : b.min_velocity * p.publish_period / d * d
        = b.min_velocity * p.publish_period :=
      div_mul_cancel₀ _ (ne_of_lt hd0)
    have hr0 : 0 ≤ b.min_velocity * p.publish_period / d := by
      rw [← neg_div_neg_eq]
      exact div_nonneg (by nlinarith) (by linarith)
    have hrlt : b.min_velocity * p.publish_period / d < 1 := by
      nlinarith [hrd, hdneg, hd0]
    exact absurd (abs_lt.mpr ⟨by linarith, hrlt⟩) h2
  · have hdpos : b.max_velocity * p.publish_period < d := by
      have := (lt_div_iff₀ hdt).mp h3
      linarith
    have hd0 : 0 < d := by nlinarith
    rw [div_mul_cancel₀ _ (ne_of_gt hd0),
      mul_div_cancel_right₀ _ (ne_of_gt hdt)]
    exact ⟨le_trans hmin hmax, le_refl _⟩
  · have hdpos : b.max_velocity * p.publish_period < d := by
      have := (lt_div_iff₀ hdt).mp h3
      linarith
    have hd0 : 0 < d := by nlinarith
    have hr0 : 0 ≤ b.max_velocity * p.publish_period / d :=
      div_nonneg (by nlinarith) (le_of_lt hd0)
    have hrlt : b.max_velocity * p.publish_period / d < 1 :=
      (div_lt_one hd0).mpr hdpos
    exact absurd (abs_lt.mpr ⟨by linarith, hrlt⟩) h4
  · exact ⟨not_lt.mp h1, not_lt.mp h3⟩

/-- Multiplying by a factor in [0, 1] keeps a value inside an interval that
brackets zero. -/
theorem scale_keeps_interval (vmin vmax k w : ℚ) (hmin : vmin ≤ 0)
    (hmax : 0 ≤ vmax) (hk0 : 0 ≤ k) (hk1 : k ≤ 1) (hw1 : vmin ≤ w)
    (hw2 : w ≤ vmax) : vmin ≤ k * w ∧ k * w ≤ vmax := by
  constructor
  · nlinarith [mul_nonneg hk0 (sub_nonneg.mpr hw1),
      mul_nonneg (sub_nonneg.mpr hk1) (neg_nonneg.mpr hmin)]
  · nlinarith [mul_nonneg hk0 (sub_nonneg.mpr hw2),
      mul_nonneg (sub_nonneg.mpr hk1) hmax]

/-- The limit-enforcement loop output has the length of its shortest input. -/
theorem enforce_length (p : ServoParameters) :
    ∀ (bs : List VariableBounds) (pvs ds : List ℚ),
      (enforceSRDFAccelVelLimits p bs pvs ds).length
        = min bs.length (min pvs.length ds.length) := by
  intro bs
  induction bs with
  | nil => intro pvs ds; simp [enforceSRDFAccelVelLimits]
  | cons b bs ih =>
    intro pvs ds
    cases pvs with
    | nil => simp [enforceSRDFAccelVelLimits]
    | cons pv pvs =>
      cases ds with
      | nil => simp [enforceSRDFAccelVelLimits]
      | cons d ds =>
        simp only [enforceSRDFAccelVelLimits, List.length_cons, ih]
        omega

/-- Element-wise description of the limit-enforcement loop. -/
theorem enforce_getD (p : ServoParameters) (db : VariableBounds) :
    ∀ (bs : List VariableBounds) (pvs ds : List ℚ) (i : Nat),
      i < bs.length → i < pvs.length → i < ds.length →
      (enforceSRDFAccelVelLimits p bs pvs ds).getD i 0
        = enforceSRDFAccelVelLimitsJoint p (bs.getD i db) (pvs.getD i 0)
            (ds.getD i 0) := by
  intro bs
  induction bs with
  | nil =>
    intro pvs ds i h1
    simp at h1
  | cons b bs ih =>
    intro pvs ds i h1 h2 h3
    cases pvs with
    | nil => simp at h2
    | cons pv pvs =>
      cases ds with
      | nil => simp at h3
      | cons d ds =>
        cases i with
        | zero => rfl
        | succ n =>
          simp only [enforceSRDFAccelVelLimits, List.getD_cons_succ]
          exact ih pvs ds n (by simpa using h1) (by simpa using h2)
            (by simpa using h3)

/-- C2: every published velocity component of a velocity-bounded joint lies
inside its velocity bounds, assuming a positive publish period, bounds that
bracket zero, a collision scale in [0, 1], and a singularity scale that is
either 1 (the joint path) or the output of the singularity scaling (the
Cartesian path).  The published velocity of joint i is the final delta of
joint i divided by the publish period. -/
theorem published_velocity_within_limits (p : ServoParameters)
    (bounds : List VariableBounds) (prev dth : List ℚ)
    (collision_scale : ℚ) (st : StatusCode) (s : ℚ) (db : VariableBounds)
    (i : Nat) (hdt : 0 < p.publish_period) (hc0 : 0 ≤ collision_scale)
    (hc1 : collision_scale ≤ 1)
    (hs : s = 1 ∨ ∃ (conditionAt : List ℚ → ℚ)
      (theta commanded_velocity u_last : List ℚ)
      (sigma_first sigma_last : ℚ) (pseudo_inverse : List (List ℚ))
      (st0 : StatusCode),
      s = (velocityScalingFactorForSingularity p conditionAt theta
        commanded_velocity u_last sigma_first sigma_last pseudo_inverse
        st0).velocity_scale)
    (hib : i < bounds.length) (hip : i < prev.length) (hid : i < dth.length)
    (hvb : (bounds.getD i db).velocity_bounded = true)
    (hmin : (bounds.getD i db).min_velocity ≤ 0)
    (hmax : 0 ≤ (bounds.getD i db).max_velocity) :
    (bounds.getD i db).min_velocity ≤
      (applyVelocityScaling collision_scale s st
          (enforceSRDFAccelVelLimits p bounds prev dth)).delta_theta.getD i 0
        / p.publish_period ∧
      (applyVelocityScaling collision_scale s st
          (enforceSRDFAccelVelLimits p bounds prev dth)).delta_theta.getD i 0
        / p.publish_period ≤ (bounds.getD i db).max_velocity := by
  have hs01 : 0 ≤ s ∧ s ≤ 1 := by
    rcases hs with rfl | ⟨ca, th, cm, u, sf, sl, pi, st0, rfl⟩
    · constructor <;> norm_num
    · exact velo_scale_mem p ca th cm u sf sl pi st0
  have hlen : i < (enforceSRDFAccelVelLimits p bounds prev dth).length := by
    rw [enforce_length]
    exact lt_min hib (lt_min hip hid)
  have hei : (enforceSRDFAccelVelLimits p bounds prev dth).getD i 0
      = enforceSRDFAccelVelLimitsJoint p (bounds.getD i db) (prev.getD i 0)
          (dth.getD i 0) :=
    enforce_getD p db bounds prev dth i hib hip hid
  have hwb : (bounds.getD i db).min_velocity ≤
      (enforceSRDFAccelVelLimits p bounds prev dth).getD i 0
        / p.publish_period ∧
      (enforceSRDFAccelVelLimits p bounds prev dth).getD i 0
        / p.publish_period ≤ (bounds.getD i db).max_velocity := by
    rw [hei]
    exact velocityLimitClip_bounds p (bounds.getD i db)
      (accelLimitClip p (bounds.getD i db) (prev.getD i 0) (dth.getD i 0))
      hdt hvb hmin hmax
  unfold applyVelocityScaling
  dsimp only
  by_cases hhalt : (if collision_scale = 0 then StatusCode.HALT_FOR_COLLISION
      else st) = StatusCode.HALT_FOR_COLLISION
  · rw [if_pos hhalt]
    dsimp only
    have hz : (List.map (fun _ => (0 : ℚ))
        (List.map (fun x => collision_scale * s * x)
          (enforceSRDFAccelVelLimits p bounds prev dth))).getD i 0 = 0 := by
      apply getD_zero_of_members
      intro x hx
      rcases List.mem_map.mp hx with ⟨y, _, rfl⟩
      rfl
    rw [hz, zero_div]
    exact ⟨hmin, hmax⟩
  · rw [if_neg hhalt]
    dsimp only
    have hmap : (List.map (fun x => collision_scale * s * x)
        (enforceSRDFAccelVelLimits p bounds prev dth)).getD i 0
        = collision_scale * s *
            ((enforceSRDFAccelVelLimits p bounds prev dth).getD i 0) := by
      rw [List.getD_eq_getElem _ _ (by simpa using hlen),
        List.getD_eq_getElem _ _ hlen, List.getElem_map]
    rw [hmap, mul_div_assoc]
    exact scale_keeps_interval _ _ _ _ hmin hmax
      (mul_nonneg hc0 hs01.1) (mul_le_one₀ hc1 hs01.1 hs01.2) hwb.1 hwb.2

/-- Witness for published_velocity_within_limits: a delta of 5 at 100 Hz
with velocity bounds [-1, 1] is clipped onto the upper bound and published
at velocity 1 after unit collision and singularity scaling. -/
theorem published_velocity_within_limits_witness :
    (-1 : ℚ) ≤ (applyVelocityScaling 1 1 StatusCode.NO_WARNING
        (enforceSRDFAccelVelLimits exampleParams
          [⟨true, -1000, 1000, true, -1, 1⟩] [0] [5])).delta_theta.getD 0 0
        / exampleParams.publish_period ∧
      (applyVelocityScaling 1 1 StatusCode.NO_WARNING
        (enforceSRDFAccelVelLimits exampleParams
          [⟨true, -1000, 1000, true, -1, 1⟩] [0] [5])).delta_theta.getD 0 0
        / exampleParams.publish_period ≤ 1 := by
  have h := published_velocity_within_limits exampleParams
    [⟨true, -1000, 1000, true, -1, 1⟩] [0] [5] 1 StatusCode.NO_WARNING 1
    ⟨false, 0, 0, false, 0, 0⟩ 0 (by norm_num [exampleParams]) (by norm_num)
    (by norm_num) (Or.inl rfl) (by norm_num) (by norm_num) (by norm_num)
    (by norm_num) (by norm_num) (by norm_num)
  exact h

end Theorems

end MoveitServo
